import Mathlib

/-!
Verification development for the tyminko/time-lapse-streams repository.

The repository has three JavaScript source files; the scheduling core lives in
src/stream-frame-capture.js and a simpler variant in src/time-lapse-recorder.js.
This file gives a shallow embedding of the scheduling core and settles the
frozen claims against it.

Modelling conventions:
* JavaScript numbers that hold millisecond durations are embedded as Int or
  Nat (all values involved are integral).
* The mutable globals of stream-frame-capture.js, namely isCapturing and
  postWorkingHoursCheckCount, are threaded explicitly: a function that reads
  or writes postWorkingHoursCheckCount takes the counter as an argument and
  returns the new counter.
* Wall-clock time is abstracted to the fields the code actually reads:
  weekday (getDay, Sunday = 0 and Monday = 1), hour and minute of the
  Kharkiv-shifted clock.  Seconds and milliseconds are taken as zero; the
  claims are stated at minute granularity.
* The host clock is fixed to UTC, so now.getTimezoneOffset() = 0.  Under this
  assumption the displayed fields of getKharkivTime() are the Kharkiv wall
  time, and the expression nextDay.getTime() - Date.now() in
  getNextCheckTime evaluates to the field-arithmetic distance to the next
  day at the morning-check hour PLUS kharkivOffset minutes, because nextDay
  carries the Kharkiv-shifted epoch while Date.now() is the real epoch.
-/

namespace TimeLapse

/-- Configuration constant of src/stream-frame-capture.js line 27: capture a
frame every minute during working hours. -/
def captureInterval : Nat := 60000

/-- Configuration constant of src/stream-frame-capture.js line 28. -/
def jpegQuality : Nat := 80

/-- Kharkiv time zone offset in minutes, src/stream-frame-capture.js line 33. -/
def kharkivOffset : Nat := 180

/-- Working hours start (12:00 Kharkiv), src/stream-frame-capture.js line 36. -/
def workingHoursStart : Nat := 12

/-- Working hours end (19:00 Kharkiv), src/stream-frame-capture.js line 37. -/
def workingHoursEnd : Nat := 19

/-- Morning check hour (10:00 Kharkiv), src/stream-frame-capture.js line 38. -/
def morningCheckTime : Nat := 10

/-- Number of checks after working hours, src/stream-frame-capture.js line 41. -/
def postWorkingHoursChecks : Nat := 3

/-- Interval between post-working-hours checks, src/stream-frame-capture.js
line 42: the value is 5 * 60000 = 300000 ms. -/
def postWorkingHoursInterval : Nat := 300000

/-- Maximum number of immediate retries, src/stream-frame-capture.js line 45. -/
def maxRetries : Nat := 3

/-- Delay between immediate retries in ms, src/stream-frame-capture.js line 46. -/
def retryDelay : Nat := 5000

/-- Timeout of the stream-availability check in src/time-lapse-recorder.js
line 14 (30 seconds).  It is the only configured timeout anywhere in the
repository. -/
def checkTimeout : Nat := 30000

/-- Milliseconds from the current Kharkiv wall time (hour, minute, seconds
taken as zero) until the next calendar day at the morning-check hour,
computed by plain field arithmetic.  This is the quantity the specification
calls the delay until the next morning check. -/
def msUntilNextMorning (hour minute : Nat) : Int :=
  ((24 : Int) - hour) * 3600000 - (minute : Int) * 60000
    + (morningCheckTime : Int) * 3600000

/-- Embedding of the branch of getNextCheckTime that builds nextDay from
kharkivTime via setDate(getDate() + 1) and setHours(morningCheckTime, 0, 0, 0)
and returns nextDay.getTime() - Date.now()  (src/stream-frame-capture.js
lines 78-82 and 111-115).  With the host clock at UTC, nextDay.getTime()
carries the Kharkiv-shifted epoch while Date.now() is the real epoch, so the
returned value is the field-arithmetic distance to the next morning check
plus kharkivOffset minutes.  The setDate call performs calendar arithmetic,
so the field-difference formula is valid across month and year boundaries. -/
def untilNextMorning (hour minute : Nat) : Int :=
  msUntilNextMorning hour minute + (kharkivOffset : Int) * 60000

/-- Embedding of getNextCheckTime (src/stream-frame-capture.js lines 64-122).
Inputs are the fields of the Kharkiv clock that the code reads (weekday with
Monday = 1, hour, minute) together with the current value of the mutable
global postWorkingHoursCheckCount.  The result is the returned delay in ms
paired with the new value of postWorkingHoursCheckCount. -/
def getNextCheckTime (weekday hour minute postCount : Nat) : Int × Nat :=
  if weekday ≠ 1 then
    -- working day (isWorkingDay() returns true)
    if workingHoursEnd ≤ hour then
      -- after working hours
      if postCount < postWorkingHoursChecks then
        ((postWorkingHoursInterval : Int), postCount + 1)
      else
        (untilNextMorning hour minute, 0)
    else if hour < morningCheckTime then
      -- before morning check time
      (((morningCheckTime : Int) - hour) * 3600000 - (minute : Int) * 60000,
        postCount)
    else if hour < workingHoursStart then
      -- between morning check and working hours start
      let timeUntilStart : Int :=
        ((workingHoursStart : Int) - hour) * 60 - (minute : Int)
      if timeUntilStart ≤ 30 then (5 * 60000, postCount)
      else if timeUntilStart ≤ 60 then (15 * 60000, postCount)
      else (30 * 60000, postCount)
    else
      -- during working hours
      ((captureInterval : Int), postCount)
  else
    -- Monday
    if workingHoursEnd ≤ hour then
      if postCount < postWorkingHoursChecks then
        ((postWorkingHoursInterval : Int), postCount + 1)
      else
        (untilNextMorning hour minute, 0)
    else
      -- during the day on Monday: check every hour
      ((3600000 : Int), postCount)

/-- Recursion core of captureWithRetry (src/stream-frame-capture.js lines
223-237).  The source recurses with retries + 1 while retries < maxRetries;
here the remaining budget maxRetries - retries is the structurally decreasing
argument, so budget = 0 corresponds exactly to the guard retries < maxRetries
being false.  The outcome oracle gives the result of the capture attempt made
at a given retries value.  The result records the boolean the function
resolves with, the number of captureFrame calls issued, and the total time
spent in the fixed inter-retry sleeps. -/
def captureWithRetryGo (outcome : Nat → Bool) : Nat → Nat → Bool × Nat × Nat
  | retries, 0 => (outcome retries, 1, 0)
  | retries, b + 1 =>
    if outcome retries then (true, 1, 0)
    else
      let r := captureWithRetryGo outcome (retries + 1) b
      (r.1, r.2.1 + 1, r.2.2 + retryDelay)

/-- Embedding of captureWithRetry (src/stream-frame-capture.js lines 223-237)
as a function of the per-attempt outcome oracle and the starting retries
value (the source calls it with retries = 0). -/
def captureWithRetry (outcome : Nat → Bool) (retries : Nat) :
    Bool × Nat × Nat :=
  captureWithRetryGo outcome retries (maxRetries - retries)

/-- One cycle of captureAndSchedule (src/stream-frame-capture.js lines
240-257) after the isCapturing guard: run captureWithRetry; on success the
next delay is captureInterval and postWorkingHoursCheckCount has been reset
to 0 inside captureWithRetry (line 227); on failure the next delay comes from
getNextCheckTime, which may update the counter.  The result is the scheduled
delay paired with the new value of postWorkingHoursCheckCount. -/
def scheduleCycle (outcome : Nat → Bool) (weekday hour minute postCount : Nat) :
    Int × Nat :=
  let r := captureWithRetry outcome 0
  if r.1 then ((captureInterval : Int), 0)
  else getNextCheckTime weekday hour minute postCount

/-- Runs n consecutive scheduler cycles at a fixed wall-clock reading,
threading the shared postWorkingHoursCheckCount through them, and returns the
final counter value.  Since every stream loop reads and writes the same
global counter, consecutive after-hours cycles of different streams compose
exactly like this. -/
def iterCycles (outcome : Nat → Bool) (weekday hour minute : Nat) :
    Nat → Nat → Nat
  | 0, c => c
  | n + 1, c => iterCycles outcome weekday hour minute n
      ((scheduleCycle outcome weekday hour minute c).2)

/-- Embedding of the close handler of captureFrame (src/stream-frame-capture.js
lines 202-219).  The exit code of the external process is an Option Int: a
process killed by a signal closes with code null, embedded as none.  Inputs
are the exit code and whether the expected output file exists on disk at
close time; the result is the boolean the promise resolves with paired with
whether the output file still exists after the handler ran (the failure
branch unlinks the file when present). -/
def captureFrameClose (code : Option Int) (outputExists : Bool) :
    Bool × Bool :=
  if code = some 0 ∧ outputExists = true then (true, outputExists)
  else (false, false)

/-- Resolution time of the promise returned by captureFrame in
src/stream-frame-capture.js (lines 193-220): the promise is resolved only in
the close handler of the spawned process; no timer is armed, so the attempt
resolves exactly when the external process closes, however late that is. -/
def captureResolveTime (closeTime : Nat) : Nat := closeTime

/-- Embedding of checkStreamAvailability in src/time-lapse-recorder.js
(lines 59-102): the promise is resolved either by the close handler or by a
setTimeout of checkTimeout ms that kills the process with SIGKILL and
resolves false; a promise resolves only once, so whichever event fires first
wins.  Inputs are the instant the process would close and the outcome its
close handler would report; the result is the resolution instant paired with
the resolved boolean.  A tie is resolved in favour of the close handler. -/
def checkStreamAvailabilityResult (closeTime : Nat) (closeOutcome : Bool) :
    Nat × Bool :=
  if closeTime ≤ checkTimeout then (closeTime, closeOutcome)
  else (checkTimeout, false)

/-- Embedding of convertJpegQuality (src/stream-frame-capture.js lines
161-164): clamp the quality to [0, 100] and return
Math.round(((100 - quality) / 100) * 29 + 2).  For the nonnegative values
that arise here Math.round x = floor(x + 1/2), and with c the clamped
quality the rounded value is floor((29 * (100 - c) / 100 + 2) + 1/2)
= (58 * (100 - c) + 500) / 200 in floor division.  The JavaScript float
evaluation agrees with this exact rational rounding for every c in [0, 100]:
the only input whose exact value is a half-integer is c = 50, where the
float computation is exact (0.5, 14.5 and 16.5 are representable), and
elsewhere the exact value is at least 1/100 away from a rounding boundary,
far beyond the float error. -/
def convertJpegQuality (quality : Int) : Nat :=
  let c : Nat := (max 0 (min 100 quality)).toNat
  (58 * (100 - c) + 500) / 200

/-!
Time-indexed trace model of the per-stream scheduler loop, used for the
shutdown claim.  Abstract time is in milliseconds; a capture attempt is
instantaneous and occupies one instant.  The Global Capture Flag is a
function of the instant (the operator may clear it at any point), the
outcome oracle gives the would-be ffmpeg result at each instant, and the
clock oracle maps an instant to the (weekday, hour, minute) fields the
Kharkiv clock shows then.
-/

/-- Embedding of the guard and spawn of captureFrame (src/stream-frame-capture.js
lines 166-167 and 194): when isCapturing is false at call time the function
returns false without spawning; otherwise it spawns one ffmpeg process (its
instant is recorded) and resolves with the oracle outcome. -/
def captureFrameT (flag outcome : Nat → Bool) (t : Nat) : Bool × List Nat :=
  if flag t then (outcome t, [t]) else (false, [])

/-- Trace version of captureWithRetry: as in captureWithRetryGo the remaining
budget is the structurally decreasing argument, and in addition the current
instant advances by retryDelay over each inter-retry sleep.  The result is
the final boolean, the list of instants at which an ffmpeg process was
spawned, and the instant at which the function returns. -/
def captureWithRetryT (flag outcome : Nat → Bool) :
    Nat → Nat → Bool × List Nat × Nat
  | t, 0 =>
    let a := captureFrameT flag outcome t
    (a.1, a.2, t)
  | t, b + 1 =>
    let a := captureFrameT flag outcome t
    if a.1 then (true, a.2, t)
    else
      let r := captureWithRetryT flag outcome (t + retryDelay) b
      (r.1, a.2 ++ r.2.1, r.2.2)

/-- Trace model of captureAndSchedule (src/stream-frame-capture.js lines
240-259): at the start of each cycle the Global Capture Flag is read; when it
is false the function returns without scheduling anything; otherwise it runs
captureWithRetry, computes the next delay (captureInterval on success with
the shared counter reset inside captureWithRetry, getNextCheckTime on
failure) and arms a timer for the next cycle.  The fuel argument bounds the
number of cycles so that the trace is a total function; the result is the
list of instants at which an ffmpeg process was spawned. -/
def captureAndScheduleT (flag outcome : Nat → Bool)
    (clock : Nat → Nat × Nat × Nat) : Nat → Nat → Nat → List Nat
  | 0, _, _ => []
  | fuel + 1, t, c =>
    if flag t then
      let r := captureWithRetryT flag outcome t maxRetries
      let wh := clock r.2.2
      let dc : Int × Nat :=
        if r.1 then ((captureInterval : Int), 0)
        else getNextCheckTime wh.1 wh.2.1 wh.2.2 c
      r.2.1 ++
        captureAndScheduleT flag outcome clock fuel (r.2.2 + dc.1.toNat) dc.2
    else []

/-- Maximum backoff value the specification names concretely: section 4.1
says the during-business-hours backoff is capped at a configured maximum
(for example, one hour).  The source has no maximum-backoff configuration
constant at all; this value follows the wording of the spec and exists only
to state the original bound claim. -/
def specMaxBackoff : Int := 3600000

/-!
Theorems settling the claims.
-/

/-- C1 (counterexample): the next-delay computation is not a pure function of
the current time: at 19:00 on a working day two consecutive calls of
getNextCheckTime with identical (weekday, hour, minute) return different
delays, because the first call mutates the global
postWorkingHoursCheckCount. -/
theorem calendarPolicy_hidden_state_cex :
    (getNextCheckTime 2 19 0 3).1 ≠
      (getNextCheckTime 2 19 0 ((getNextCheckTime 2 19 0 3).2)).1 := by
  decide

/-- C1 (amended): getNextCheckTime is deterministic given the current time
fields AND the value of the global postWorkingHoursCheckCount; whenever the
current hour is before workingHoursEnd the call leaves the counter unchanged
(no side effects) and the returned delay does not depend on the counter, so
repeated calls with identical time inputs return identical output.  After
workingHoursEnd the call mutates the counter and its output depends on it. -/
theorem calendarPolicy_pure_before_evening (w h m c c' : Nat)
    (hh : h < workingHoursEnd) :
    (getNextCheckTime w h m c).2 = c ∧
      (getNextCheckTime w h m c').1 = (getNextCheckTime w h m c).1 := by
  have hne : ¬ workingHoursEnd ≤ h := by omega
  simp only [getNextCheckTime, if_neg hne]
  split_ifs <;> simp_all

/-- Witness for calendarPolicy_pure_before_evening at a concrete input. -/
theorem calendarPolicy_pure_before_evening_witness :
    (getNextCheckTime 2 14 0 0).2 = 0 ∧
      (getNextCheckTime 2 14 0 7).1 = (getNextCheckTime 2 14 0 0).1 :=
  calendarPolicy_pure_before_evening 2 14 0 0 7 (by decide)

/-- C3 (counterexample): the next delay is not bounded by the configured
maximum backoff the specification describes (one hour): at 23:00 on a
working day, with the post-working-hours checks exhausted, the returned
delay is 50400000 ms (14 hours). -/
theorem nextDelay_exceeds_specMaxBackoff_cex :
    (getNextCheckTime 2 23 0 3).1 = 50400000 ∧
      ¬ ((getNextCheckTime 2 23 0 3).1 ≤ specMaxBackoff) := by
  decide

/-- C3 (amended): for every input with valid hour and minute fields, the
delay returned by getNextCheckTime is non-negative and bounded above by
64800000 ms (18 hours, attained at 19:00 with the post-working-hours checks
exhausted), a bound determined by the calendar configuration constants; the
source has no dedicated maximum-backoff configuration constant and the
returned delay never depends on a failure count. -/
theorem nextDelay_bounds (w h m c : Nat) (hh : h ≤ 23) (hm : m ≤ 59) :
    0 ≤ (getNextCheckTime w h m c).1 ∧
      (getNextCheckTime w h m c).1 ≤ 64800000 := by
  simp only [getNextCheckTime, untilNextMorning, msUntilNextMorning,
    captureInterval, postWorkingHoursInterval, workingHoursEnd,
    morningCheckTime, workingHoursStart, kharkivOffset,
    postWorkingHoursChecks]
  split_ifs <;> constructor <;> push_cast <;> omega

/-- Witness for nextDelay_bounds at a concrete input. -/
theorem nextDelay_bounds_witness :
    0 ≤ (getNextCheckTime 2 23 30 0).1 ∧
      (getNextCheckTime 2 23 30 0).1 ≤ 64800000 :=
  nextDelay_bounds 2 23 30 0 (by decide) (by decide)

/-- C4 (counterexample): during business hours no exponential backoff is
applied: after a scheduler cycle whose every attempt failed (so the
immediate-retry budget is exhausted and the post-budget failure count is 1),
the scheduled delay at 14:00 on a working day is not strictly greater than
the steady interval. -/
theorem businessHours_no_backoff_cex :
    ¬ ((captureInterval : Int) <
        (scheduleCycle (fun _ => false) 2 14 0 1).1) := by
  decide

/-- C4 (amended): during business hours on a working day the scheduled delay
equals the steady interval captureInterval (60000 ms) for every outcome
sequence and every counter value; it is therefore monotonically
non-decreasing (constant) in the failure count and trivially capped, but
never strictly greater than the steady interval: the code applies no
failure-count-dependent backoff. -/
theorem delay_equals_interval_during_business (o : Nat → Bool)
    (w h m c : Nat) (hw : w ≠ 1) (h1 : workingHoursStart ≤ h)
    (h2 : h < workingHoursEnd) :
    (scheduleCycle o w h m c).1 = (captureInterval : Int) := by
  simp only [scheduleCycle]
  split
  · rfl
  · simp only [getNextCheckTime, workingHoursEnd, morningCheckTime,
      workingHoursStart, captureInterval, postWorkingHoursChecks,
      postWorkingHoursInterval] at h1 h2 ⊢
    split_ifs <;> first | rfl | omega

/-- Witness for delay_equals_interval_during_business at a concrete input. -/
theorem delay_equals_interval_during_business_witness :
    (scheduleCycle (fun _ => false) 2 14 0 5).1 = (captureInterval : Int) :=
  delay_equals_interval_during_business (fun _ => false) 2 14 0 5
    (by decide) (by decide) (by decide)

/-- C9 (counterexample): at 20:00 on a working day with the
post-working-hours counter at 0, getNextCheckTime returns the 5-minute
post-working-hours interval, not the number of milliseconds until the next
day at the morning-check hour. -/
theorem afterHours_postChecks_cex :
    (getNextCheckTime 2 20 0 0).1 = 300000 ∧
      (getNextCheckTime 2 20 0 0).1 ≠ msUntilNextMorning 20 0 := by
  decide

/-- C9 (amended): after workingHoursEnd (on any weekday) the delay depends on
the shared post-working-hours counter, not on a failure count: while the
counter is below postWorkingHoursChecks the call returns the 5-minute
post-working-hours interval; once the checks are exhausted it returns the
until-next-morning value, which on a UTC host exceeds the field-arithmetic
milliseconds until the next day at the morning-check hour by kharkivOffset
minutes, because the code subtracts the real epoch Date.now() from the
Kharkiv-shifted epoch of nextDay. -/
theorem afterHours_delay (w h m c : Nat) (hh : workingHoursEnd ≤ h) :
    (c < postWorkingHoursChecks →
        (getNextCheckTime w h m c).1 = (postWorkingHoursInterval : Int)) ∧
      (postWorkingHoursChecks ≤ c →
        (getNextCheckTime w h m c).1
          = msUntilNextMorning h m + (kharkivOffset : Int) * 60000) := by
  simp only [getNextCheckTime, untilNextMorning]
  have hne : ¬ h < morningCheckTime := by
    simp only [workingHoursEnd] at hh
    simp only [morningCheckTime]
    omega
  split_ifs <;> constructor <;> intro hc <;> first | rfl | omega

/-- Witness for afterHours_delay at a concrete input. -/
theorem afterHours_delay_witness :
    (2 < postWorkingHoursChecks →
        (getNextCheckTime 2 21 15 2).1 = (postWorkingHoursInterval : Int)) ∧
      (postWorkingHoursChecks ≤ 2 →
        (getNextCheckTime 2 21 15 2).1
          = msUntilNextMorning 21 15 + (kharkivOffset : Int) * 60000) :=
  afterHours_delay 2 21 15 2 (by decide)

/-- Helper: when every attempt in the remaining budget fails, the retry core
issues one attempt per budget unit plus the initial one, sleeping the fixed
retryDelay between consecutive attempts, and resolves false. -/
theorem captureWithRetryGo_all_fail (outcome : Nat → Bool) :
    ∀ b r, (∀ i, r ≤ i → i ≤ r + b → outcome i = false) →
      captureWithRetryGo outcome r b = (false, b + 1, b * retryDelay) := by
  intro b
  induction b with
  | zero =>
    intro r hf
    simp [captureWithRetryGo, hf r le_rfl (by omega)]
  | succ b ih =>
    intro r hf
    have h0 : outcome r = false := hf r le_rfl (by omega)
    have hrec := ih (r + 1) (fun i h1 h2 => hf i (by omega) (by omega))
    simp only [captureWithRetryGo, h0, Bool.false_eq_true, if_false, hrec]
    refine Prod.ext rfl (Prod.ext rfl ?_)
    simp [retryDelay]
    ring

/-- Helper: when the first k attempts of the remaining budget fail and the
attempt after them succeeds, the retry core issues exactly k + 1 attempts,
sleeping the fixed retryDelay between consecutive attempts, and resolves
true. -/
theorem captureWithRetryGo_succeeds (outcome : Nat → Bool) :
    ∀ k r b, k ≤ b → (∀ i, r ≤ i → i < r + k → outcome i = false) →
      outcome (r + k) = true →
      captureWithRetryGo outcome r b = (true, k + 1, k * retryDelay) := by
  intro k
  induction k with
  | zero =>
    intro r b _ _ hs
    have h0 : outcome r = true := by simpa using hs
    cases b with
    | zero => simp [captureWithRetryGo, h0]
    | succ b => simp [captureWithRetryGo, h0]
  | succ k ih =>
    intro r b hkb hf hs
    obtain ⟨b', rfl⟩ : ∃ b', b = b' + 1 := ⟨b - 1, by omega⟩
    have h0 : outcome r = false := hf r le_rfl (by omega)
    have hs1 : outcome (r + 1 + k) = true := by
      have : r + 1 + k = r + (k + 1) := by omega
      rw [this]; exact hs
    have hrec := ih (r + 1) b' (by omega)
      (fun i h1 h2 => hf i (by omega) (by omega)) hs1
    simp only [captureWithRetryGo, h0, Bool.false_eq_true, if_false, hrec]
    refine Prod.ext rfl (Prod.ext rfl ?_)
    simp [retryDelay]
    ring

/-- C5: the Retry Controller issues exactly N + 1 capture attempts when the
first N attempts fail and attempt N succeeds with N at most maxRetries, with
total inter-attempt sleeping exactly N times the fixed retryDelay; and when
every attempt up to the budget fails it stops after maxRetries + 1 attempts
(the budget plus the initial attempt) and returns control with false.  The
embedding of captureWithRetry involves no calendar input, so the immediate
retries never consult getNextCheckTime. -/
theorem retryController_attempts (outcome : Nat → Bool) (N : Nat) :
    (N ≤ maxRetries → (∀ i, i < N → outcome i = false) →
        outcome N = true →
        captureWithRetry outcome 0 = (true, N + 1, N * retryDelay)) ∧
      ((∀ i, i ≤ maxRetries → outcome i = false) →
        captureWithRetry outcome 0
          = (false, maxRetries + 1, maxRetries * retryDelay)) := by
  constructor
  · intro hN hf hs
    have := captureWithRetryGo_succeeds outcome N 0 maxRetries hN
      (fun i h1 h2 => hf i (by omega)) (by simpa using hs)
    simpa [captureWithRetry] using this
  · intro hf
    have := captureWithRetryGo_all_fail outcome maxRetries 0
      (fun i h1 h2 => hf i (by omega))
    simpa [captureWithRetry] using this

/-- Witness for retryController_attempts: two failures followed by a success
give three attempts and two fixed sleeps; four failures exhaust the budget
after four attempts. -/
theorem retryController_attempts_witness :
    captureWithRetry (fun i => decide (i = 2)) 0 = (true, 3, 10000) ∧
      captureWithRetry (fun _ => false) 0 = (false, 4, 15000) :=
  ⟨(retryController_attempts (fun i => decide (i = 2)) 2).1 (by decide)
      (by decide) (by decide),
    (retryController_attempts (fun _ => false) 0).2 (fun i _ => rfl)⟩

/-- C2 (counterexample): the scheduler cycles of distinct streams share the
mutable postWorkingHoursCheckCount: running one failing after-hours cycle
from counter value 3 resets the shared counter to 0, and a second identical
cycle (for another stream, at the same wall-clock reading) then computes a
different delay than the first one did. -/
theorem sharedCounter_cross_stream_cex :
    (scheduleCycle (fun _ => false) 2 19 0
        ((scheduleCycle (fun _ => false) 2 19 0 3).2)).1 ≠
      (scheduleCycle (fun _ => false) 2 19 0 3).1 := by
  decide

/-- Helper: a failing after-hours scheduler cycle advances the shared counter
round-robin: below postWorkingHoursChecks it increments, at the limit it
resets to 0. -/
theorem scheduleCycle_counter_step (o : Nat → Bool) (w h m c : Nat)
    (hfail : (captureWithRetry o 0).1 = false)
    (hh : workingHoursEnd ≤ h) :
    (scheduleCycle o w h m c).2
      = if c < postWorkingHoursChecks then c + 1 else 0 := by
  simp only [scheduleCycle, hfail, Bool.false_eq_true, if_false,
    getNextCheckTime]
  split_ifs <;> simp_all

/-- Helper: iterating failing after-hours cycles from a counter value at most
postWorkingHoursChecks moves the shared counter to (c + n) modulo
(postWorkingHoursChecks + 1). -/
theorem iterCycles_mod (o : Nat → Bool) (w h m : Nat)
    (hfail : (captureWithRetry o 0).1 = false)
    (hh : workingHoursEnd ≤ h) :
    ∀ n c, c ≤ postWorkingHoursChecks →
      iterCycles o w h m n c = (c + n) % (postWorkingHoursChecks + 1) := by
  intro n
  induction n with
  | zero =>
    intro c hc
    simp only [iterCycles, postWorkingHoursChecks] at *
    omega
  | succ n ih =>
    intro c hc
    simp only [iterCycles, scheduleCycle_counter_step o w h m c hfail hh]
    by_cases hc3 : c < postWorkingHoursChecks
    · rw [if_pos hc3, ih (c + 1) (by omega)]
      simp only [postWorkingHoursChecks] at *
      omega
    · rw [if_neg hc3, ih 0 (by omega)]
      simp only [postWorkingHoursChecks] at *
      omega

/-- C2 (amended): the per-stream scheduler loops share mutable state beyond
the global capture flag: postWorkingHoursCheckCount is one process-wide
counter read and written by every stream.  Whichever streams run the cycles,
n consecutive failing after-hours cycles starting from counter 0 leave the
shared counter at n modulo (postWorkingHoursChecks + 1), so every fourth
such cycle across the whole fleet gets the long until-morning delay while
the other three get the 5-minute interval.  The only per-stream
failure-related quantity is the retries argument of captureWithRetry, which
is a call parameter local to one cycle. -/
theorem sharedCounter_round_robin (o : Nat → Bool) (w h m n : Nat)
    (hfail : (captureWithRetry o 0).1 = false)
    (hh : workingHoursEnd ≤ h) :
    iterCycles o w h m n 0 = n % (postWorkingHoursChecks + 1) := by
  have := iterCycles_mod o w h m hfail hh n 0 (by omega)
  simpa using this

/-- Witness for sharedCounter_round_robin at a concrete input. -/
theorem sharedCounter_round_robin_witness :
    iterCycles (fun _ => false) 2 19 0 6 0
      = 6 % (postWorkingHoursChecks + 1) :=
  sharedCounter_round_robin (fun _ => false) 2 19 0 6 (by decide) (by decide)

/-- C6: the close handler of captureFrame resolves true exactly when the
process exited with code 0 and the expected output file exists on disk, and
whenever it resolves false the output file no longer exists when the outcome
is finalized (the failure branch unlinks any file that was created). -/
theorem captureOutcome_iff (code : Option Int) (ex : Bool) :
    ((captureFrameClose code ex).1 = true ↔ code = some 0 ∧ ex = true) ∧
      ((captureFrameClose code ex).1 = false →
        (captureFrameClose code ex).2 = false) := by
  unfold captureFrameClose
  split_ifs with hc
  · simp [hc]
  · simp [hc]

/-- Witness for captureOutcome_iff: a nonzero exit code with the file present
yields failure with the file removed. -/
theorem captureOutcome_iff_witness :
    (captureFrameClose (some 1) true).2 = false :=
  (captureOutcome_iff (some 1) true).2 (by decide)

/-- C7 (counterexample): the capture attempt of stream-frame-capture.js has
no upper bound on wall-clock time: no timer is armed, so when the external
process closes one millisecond after the only configured timeout in the
repository the attempt is still pending at the timeout and resolves only at
the close. -/
theorem captureNoTimeout_cex :
    captureResolveTime (checkTimeout + 1) = checkTimeout + 1 ∧
      ¬ (captureResolveTime (checkTimeout + 1) ≤ checkTimeout) := by
  decide

/-- C7 (amended): only the stream-availability check of
time-lapse-recorder.js enforces a wall-clock bound: it resolves within
checkTimeout ms, and whenever the process outlives the timeout it is killed
and the outcome is false (never a success); the capture attempt of
stream-frame-capture.js resolves exactly at process close, with no bound. -/
theorem availabilityCheck_bounded (t : Nat) (b : Bool) :
    (checkStreamAvailabilityResult t b).1 ≤ checkTimeout ∧
      (checkTimeout < t → (checkStreamAvailabilityResult t b).2 = false) ∧
      captureResolveTime t = t := by
  unfold checkStreamAvailabilityResult captureResolveTime
  split_ifs with h
  · exact ⟨h, fun hlt => absurd h (by omega), rfl⟩
  · exact ⟨le_rfl, fun _ => rfl, rfl⟩

/-- Witness for availabilityCheck_bounded: a process closing after the
timeout is cut off at checkTimeout with a false outcome. -/
theorem availabilityCheck_bounded_witness :
    (checkStreamAvailabilityResult 40000 true).2 = false :=
  (availabilityCheck_bounded 40000 true).2.1 (by decide)

/-- Helper: every spawn instant recorded by the trace version of
captureWithRetry has the Global Capture Flag true, because captureFrame
spawns only behind its isCapturing guard. -/
theorem captureWithRetryT_spawn_flag (flag outcome : Nat → Bool) :
    ∀ b t s, s ∈ (captureWithRetryT flag outcome t b).2.1 →
      flag s = true := by
  intro b
  induction b with
  | zero =>
    intro t s hs
    by_cases hft : flag t
    · simp [captureWithRetryT, captureFrameT, hft] at hs
      subst hs
      exact hft
    · simp [captureWithRetryT, captureFrameT, hft] at hs
  | succ b ih =>
    intro t s hs
    by_cases hft : flag t
    · by_cases ho : outcome t
      · simp [captureWithRetryT, captureFrameT, hft, ho] at hs
        subst hs
        exact hft
      · simp [captureWithRetryT, captureFrameT, hft, ho] at hs
        rcases hs with hs | hs
        · subst hs
          exact hft
        · exact ih _ _ hs
    · simp [captureWithRetryT, captureFrameT, hft] at hs
      exact ih _ _ hs

/-- Helper: every spawn instant in a scheduler-loop trace has the Global
Capture Flag true. -/
theorem captureAndScheduleT_spawn_flag (flag outcome : Nat → Bool)
    (clock : Nat → Nat × Nat × Nat) :
    ∀ fuel t c s, s ∈ captureAndScheduleT flag outcome clock fuel t c →
      flag s = true := by
  intro fuel
  induction fuel with
  | zero =>
    intro t c s hs
    simp [captureAndScheduleT] at hs
  | succ fuel ih =>
    intro t c s hs
    by_cases hft : flag t
    · simp only [captureAndScheduleT, hft, if_true, List.mem_append] at hs
      rcases hs with hs | hs
      · exact captureWithRetryT_spawn_flag flag outcome maxRetries t s hs
      · exact ih _ _ _ hs
    · simp [captureAndScheduleT, hft] at hs

/-- C8: once the Global Capture Flag has become false (it is false from
instant T onward), no ffmpeg process is ever spawned at or after T by any
scheduler-loop trace, and a cycle whose start instant falls at or after T
produces nothing at all: it neither captures nor arms a further timer. -/
theorem noFurtherAttemptAfterStop (flag outcome : Nat → Bool)
    (clock : Nat → Nat × Nat × Nat) (T fuel t c s : Nat)
    (hstop : ∀ u, T ≤ u → flag u = false) :
    (s ∈ captureAndScheduleT flag outcome clock fuel t c → s < T) ∧
      (T ≤ t → captureAndScheduleT flag outcome clock fuel t c = []) := by
  constructor
  · intro hs
    have hf := captureAndScheduleT_spawn_flag flag outcome clock fuel t c s hs
    by_contra hlt
    have hfalse : flag s = false := hstop s (by omega)
    rw [hf] at hfalse
    exact Bool.noConfusion hfalse
  · intro ht
    cases fuel with
    | zero => rfl
    | succ fuel => simp [captureAndScheduleT, hstop t ht]

/-- Witness for noFurtherAttemptAfterStop with a pre-cleared flag. -/
theorem noFurtherAttemptAfterStop_witness :
    (7 ∈ captureAndScheduleT (fun _ => false) (fun _ => true)
        (fun _ => (2, 14, 0)) 3 0 0 → 7 < 0) ∧
      (0 ≤ 0 → captureAndScheduleT (fun _ => false) (fun _ => true)
        (fun _ => (2, 14, 0)) 3 0 0 = []) :=
  noFurtherAttemptAfterStop (fun _ => false) (fun _ => true)
    (fun _ => (2, 14, 0)) 0 3 0 0 7 (fun _ _ => rfl)

/-- C10: convertJpegQuality maps every integer quality, clamped to [0, 100],
into the native encoder range [2, 31], and the result is monotonically
non-increasing in the input quality. -/
theorem convertJpegQuality_range_mono (q q' : Int) (hqq : q ≤ q') :
    (2 ≤ convertJpegQuality q ∧ convertJpegQuality q ≤ 31) ∧
      convertJpegQuality q' ≤ convertJpegQuality q := by
  simp only [convertJpegQuality]
  omega

/-- Witness for convertJpegQuality_range_mono: an input below 0 maps to 31,
an input above 100 maps to 2, and the order reverses. -/
theorem convertJpegQuality_range_mono_witness :
    (2 ≤ convertJpegQuality (-5) ∧ convertJpegQuality (-5) ≤ 31) ∧
      convertJpegQuality 200 ≤ convertJpegQuality (-5) :=
  convertJpegQuality_range_mono (-5) 200 (by decide)

end TimeLapse
